import Mathlib

/-
  Verification of the Corporate Pulse Engine dashboard (src/dashboard.py).

  Shallow embedding conventions:
  - Python floats are modelled as rationals (ℚ); every numeric value the
    dashboard handles is finite and the classification thresholds are exact.
  - A raw JSON field value is either a parseable number or an unparseable
    value (`Raw.bad`); an absent key is `Option.none`.
  - Exceptions are modelled by explicit sum types (`Except`, dedicated
    result inductives), matching where the source catches or fails to
    catch them.
-/

/-- A raw field value as it arrives from JSON or the datastore: either a
value that `float(...)` parses to a number, or an unparseable value. -/
inductive Raw where
  | num (q : ℚ)
  | bad
deriving DecidableEq, Repr

/-- One record as handled by the dashboard: the dict shape read from the
webhook or from a `pulse_logs` row.  `peRatioAlt` embeds the fallback key
spelled PERatio in the source (line 166); `top_news` is the headline used
for the SIMULATION marker filter. -/
structure PulseRecord where
  ticker : Option String := none
  pe_ratio : Option Raw := none
  peRatioAlt : Option Raw := none
  hype_score : Option Raw := none
  gap_score : Option Raw := none
  top_news : Option String := none
deriving DecidableEq, Repr

/-- The coercion every field goes through: `float(x)` with a fallback of
`0.0` on parse failure or absence (dashboard.py lines 168-177; in
`get_db_data` the same effect comes from `pd.to_numeric(...,
errors="coerce").fillna(0)`, lines 50-52). -/
def toFloat : Option Raw → ℚ
  | some (Raw.num q) => q
  | _ => 0

/-- `display_data.get("pe_ratio")` with the `PERatio` fallback
(dashboard.py lines 165-166). -/
def rawPe (r : PulseRecord) : Option Raw :=
  match r.pe_ratio with
  | some v => some v
  | none => r.peRatioAlt

/-- The value shown for the P/E ratio: a number, or the string sentinel
spelled N/A in the source (lines 181, 185). -/
inductive PeDisplay where
  | num (q : ℚ)
  | na
deriving DecidableEq, Repr

/-- `round(x, 2)`: round to two decimal places, ties to even, as Python
rounds an exact value. -/
def round2 (q : ℚ) : ℚ :=
  let x := q * 100
  let f : ℤ := ⌊x⌋
  let r := x - (f : ℚ)
  let n : ℤ :=
    if r < 1/2 then f
    else if 1/2 < r then f + 1
    else if f % 2 = 0 then f else f + 1
  (n : ℚ) / 100

/-- `get_recommendation(gap, pe, hype)` (dashboard.py lines 68-83):
four branches in priority order, first match wins; returns
(title, advisory text, color). The `pe` argument receives the displayed
P/E, so the first branch tests `pe == 0 or pe == "N/A"`. -/
def get_recommendation (gap : ℚ) (pe : PeDisplay) (hype : ℚ) :
    String × String × String :=
  if pe = PeDisplay.num 0 ∨ pe = PeDisplay.na then
    ("⚠️ SPECULATIVE HOLD",
     "Earnings are negative or missing. Market sentiment is driving price purely on speculation. High volatility expected.",
     "#808080")
  else if gap > 50 then
    ("🔴 REDUCE EXPOSURE",
     "The asset is effectively a bubble. Hype has completely detached from fundamental reality. Risk of correction is high.",
     "#ff4b4b")
  else if gap < 20 then
    ("🟢 VALUE OPPORTUNITY",
     "Fundamentals are strong relative to market sentiment. The asset may be overlooked or oversold.",
     "#09ab3b")
  else
    ("🟡 HOLD / NEUTRAL",
     "Valuation is consistent with market sentiment. No significant inefficiency detected.",
     "#ffa500")

/-- The reconciliation of lines 151-156: the live record, if any, is
authoritative; otherwise the last row of the ticker history
(`hist_df.iloc[-1]`); otherwise nothing is displayed. -/
def reconcile (live : Option PulseRecord) (hist : List PulseRecord) :
    Option PulseRecord :=
  match live with
  | some l => some l
  | none => hist.getLast?

/-- The P/E validation of lines 164-171 and 180: parse with fallback 0,
valid iff strictly positive.  Returns (pe_value, is_valid). -/
def validate_pe (raw : Option Raw) : ℚ × Bool :=
  let v : ℚ :=
    match raw with
    | some (Raw.num q) => q
    | _ => 0
  (v, decide (0 < v))

/-- The gap value used for display and recommendation (lines 176-183):
parsed `gap_score` with fallback 0; when the P/E is valid and the parsed
gap is 0 it is re-derived as |pe − hype|; otherwise the parsed value is
kept. -/
def gap_value (r : PulseRecord) : ℚ :=
  let pe := toFloat (rawPe r)
  let hype := toFloat r.hype_score
  let g := toFloat r.gap_score
  if 0 < pe then (if g = 0 then |pe - hype| else g) else g

/-- The metrics block of lines 164-191 for one display record: produces
the displayed P/E, the displayed gap (`none` renders the N/A sentinel),
and the recommendation triple.  In the invalid branch the source forces
`pe_value = 0` and calls `get_recommendation` with gap 0. -/
def renderMetrics (r : PulseRecord) :
    PeDisplay × Option ℚ × (String × String × String) :=
  let pe_value := toFloat (rawPe r)
  let hype_value := toFloat r.hype_score
  if 0 < pe_value then
    let pe_display := PeDisplay.num (round2 pe_value)
    (pe_display, some (round2 (gap_value r)),
      get_recommendation (gap_value r) pe_display hype_value)
  else
    (PeDisplay.na, none, get_recommendation 0 PeDisplay.na hype_value)

/-- A parsed JSON response body: a dict, a list, or any other JSON value
(on which `.get` would raise `AttributeError`). -/
inductive JsonBody where
  | jdict (r : PulseRecord)
  | jlist (items : List JsonBody)
  | jscalar

/-- The outcome of `requests.get(n8n_url, ...)` (line 124): a response
with a status code and a body (`none` when `res.json()` raises
`ValueError`), or an exception escaping `requests.get` — a timeout or any
other transport failure. -/
inductive HttpResult where
  | response (status : ℕ) (body : Option JsonBody)
  | timeout
  | connectionError (detail : String)

/-- Truthiness of `data.get("ticker")` (line 131): present and a
non-empty string. -/
def tickerTruthy (r : PulseRecord) : Bool :=
  match r.ticker with
  | some s => !s.isEmpty
  | none => false

/-- Line 129: a parsed body that is a non-empty list is replaced by its
first element; everything else is left as is. -/
def normalizeBody : JsonBody → JsonBody
  | JsonBody.jlist (x :: _) => x
  | b => b

def successMsg : String := "✅ Live Data Acquired."

def emptyMsg : String := "⚠️ Live Feed Empty. Falling back to database."

def malformedMsg : String :=
  "⚠️ External Data Provider is undergoing maintenance. Displaying cached intelligence."

def timeoutMsg : String := "⚠️ Live Feed Timeout. Displaying cached intelligence."

def unstableMsg (status : ℕ) : String :=
  "⚠️ Live Feed Unstable (" ++ toString status ++ "). Using cached data."

/-- The Initiate Analysis request handler (lines 122-141): returns the
live record stored in session state (`none` on any failure) and the
status message shown.  The `except ValueError` on line 136 catches only
the JSON parse failure; an `AttributeError` from `.get` on a non-dict
body propagates to the outer `except Exception` (line 140), which also
absorbs timeouts and every other transport failure under one message. -/
def initiateAnalysis (res : HttpResult) : Option PulseRecord × String :=
  match res with
  | HttpResult.timeout => (none, timeoutMsg)
  | HttpResult.connectionError _ => (none, timeoutMsg)
  | HttpResult.response status body =>
    if status = 200 then
      match body with
      | none => (none, malformedMsg)
      | some b =>
        match normalizeBody b with
        | JsonBody.jdict r =>
          if tickerTruthy r then (some r, successMsg) else (none, emptyMsg)
        | _ => (none, timeoutMsg)
    else (none, unstableMsg status)

/-- An error raised by the datastore client during `execute()`. -/
inductive DbError where
  | queryFailed (detail : String)
deriving DecidableEq, Repr

/-- A row after the numeric coercion of `get_db_data` (line 52): the
three numeric columns parsed with fallback 0. -/
structure CleanRow where
  ticker : Option String
  pe_ratio : ℚ
  hype_score : ℚ
  gap_score : ℚ
  top_news : Option String
deriving DecidableEq, Repr

def simMarker : String := "SIMULATION"

/-- Whether the first character list starts the second. -/
def startsWithChars : List Char → List Char → Bool
  | [], _ => true
  | _ :: _, [] => false
  | p :: ps, c :: cs => (p == c) && startsWithChars ps cs

/-- Whether the first character list occurs contiguously in the second. -/
def occursInChars : List Char → List Char → Bool
  | pat, [] => pat.isEmpty
  | pat, c :: cs => startsWithChars pat (c :: cs) || occursInChars pat cs

/-- `df["top_news"].astype(str).str.contains("SIMULATION")` for one row:
substring containment; an absent headline stringifies as a text without
the marker. -/
def hasSimMarker : Option String → Bool
  | some s => occursInChars simMarker.toList s.toList
  | none => false

def cleanRow (r : PulseRecord) : CleanRow :=
  { ticker := r.ticker
    pe_ratio := toFloat r.pe_ratio
    hype_score := toFloat r.hype_score
    gap_score := toFloat r.gap_score
    top_news := r.top_news }

/-- `get_db_data(allow_sim)` (lines 46-55) over an explicit query
outcome: the source wraps nothing in try/except, so a query error
propagates unchanged; on success the numeric columns are coerced and,
when `allow_sim` is false, rows carrying the SIMULATION marker are
dropped. -/
def get_db_data (resp : Except DbError (List PulseRecord)) (allow_sim : Bool) :
    Except DbError (List CleanRow) :=
  match resp with
  | Except.error e => Except.error e
  | Except.ok rows =>
    let df := rows.map cleanRow
    Except.ok (if allow_sim then df else df.filter (fun r => !hasSimMarker r.top_news))

/-- What the top section renders (lines 92-107): an uncaught exception
(the script aborts with a traceback), the informational empty state, or
the chart content. -/
inductive GlobalRender where
  | crash (e : DbError)
  | infoEmpty
  | content (rows : List CleanRow)
deriving DecidableEq, Repr

/-- Lines 92-107: `global_df = get_db_data(show_sim)` with no handler —
an error crashes; an empty frame shows `st.info`; otherwise the scatter
section renders from the frame. -/
def renderGlobal (resp : Except DbError (List PulseRecord)) (allow_sim : Bool) :
    GlobalRender :=
  match get_db_data resp allow_sim with
  | Except.error e => GlobalRender.crash e
  | Except.ok rows =>
    if rows.isEmpty then GlobalRender.infoEmpty else GlobalRender.content rows

inductive TrendSignal where
  | INSUFFICIENT_DATA
  | ELEVATED
  | STABLE
deriving DecidableEq, Repr

/-- Modelled from the spec: the Trend Evaluator of spec section 4.5 has
no implementation in src/dashboard.py (the history chart is drawn
without any trend computation), so `evaluate_trend` is taken from the
spec text: fewer than 2 records yields INSUFFICIENT_DATA; otherwise the
latest gap is compared against 1.2 times the arithmetic mean of the full
history. -/
def evaluate_trend (history : List ℚ) : TrendSignal :=
  if history.length < 2 then TrendSignal.INSUFFICIENT_DATA
  else
    let mean := history.sum / (history.length : ℚ)
    let latest := history.getLast?.getD 0
    if 12/10 * mean < latest then TrendSignal.ELEVATED else TrendSignal.STABLE

/-! ## Helper lemmas about the recommendation engine -/

theorem gr_speculative (gap hype : ℚ) (pe : PeDisplay)
    (h : pe = PeDisplay.num 0 ∨ pe = PeDisplay.na) :
    (get_recommendation gap pe hype).1 = "⚠️ SPECULATIVE HOLD" := by
  unfold get_recommendation
  rw [if_pos h]

theorem gr_high (gap hype : ℚ) (pe : PeDisplay)
    (hv : ¬(pe = PeDisplay.num 0 ∨ pe = PeDisplay.na)) (hg : 50 < gap) :
    (get_recommendation gap pe hype).1 = "🔴 REDUCE EXPOSURE" := by
  unfold get_recommendation
  rw [if_neg hv, if_pos hg]

theorem gr_value (gap hype : ℚ) (pe : PeDisplay)
    (hv : ¬(pe = PeDisplay.num 0 ∨ pe = PeDisplay.na)) (hg : gap < 20) :
    (get_recommendation gap pe hype).1 = "🟢 VALUE OPPORTUNITY" := by
  unfold get_recommendation
  rw [if_neg hv, if_neg (by linarith : ¬(50 : ℚ) < gap), if_pos hg]

theorem gr_neutral (gap hype : ℚ) (pe : PeDisplay)
    (hv : ¬(pe = PeDisplay.num 0 ∨ pe = PeDisplay.na))
    (h1 : 20 ≤ gap) (h2 : gap ≤ 50) :
    (get_recommendation gap pe hype).1 = "🟡 HOLD / NEUTRAL" := by
  unfold get_recommendation
  rw [if_neg hv, if_neg (not_lt.mpr h2), if_neg (not_lt.mpr h1)]

/-! ## Claim theorems -/

/-- C1: the classification evaluates four branches in fixed priority
order, first match winning: an invalid P/E (displayed 0 or N/A) yields
the speculative category; otherwise gap > 50 yields the high-risk
category (gap = 50 excluded); otherwise gap < 20 yields the
value-opportunity category (gap = 20 excluded); otherwise neutral; with
the stated concrete boundary evaluations at 51, 50, 19, 20 and 35. -/
theorem classify_priority (gap hype : ℚ) (pe : PeDisplay) :
    ((pe = PeDisplay.num 0 ∨ pe = PeDisplay.na) →
      (get_recommendation gap pe hype).1 = "⚠️ SPECULATIVE HOLD") ∧
    (¬(pe = PeDisplay.num 0 ∨ pe = PeDisplay.na) →
      (50 < gap → (get_recommendation gap pe hype).1 = "🔴 REDUCE EXPOSURE") ∧
      (gap ≤ 50 → (get_recommendation gap pe hype).1 ≠ "🔴 REDUCE EXPOSURE") ∧
      (gap < 20 → (get_recommendation gap pe hype).1 = "🟢 VALUE OPPORTUNITY") ∧
      (20 ≤ gap → (get_recommendation gap pe hype).1 ≠ "🟢 VALUE OPPORTUNITY") ∧
      (20 ≤ gap → gap ≤ 50 → (get_recommendation gap pe hype).1 = "🟡 HOLD / NEUTRAL") ∧
      (get_recommendation 51 pe hype).1 = "🔴 REDUCE EXPOSURE" ∧
      (get_recommendation 50 pe hype).1 ≠ "🔴 REDUCE EXPOSURE" ∧
      (get_recommendation 19 pe hype).1 = "🟢 VALUE OPPORTUNITY" ∧
      (get_recommendation 20 pe hype).1 ≠ "🟢 VALUE OPPORTUNITY" ∧
      (get_recommendation 35 pe hype).1 = "🟡 HOLD / NEUTRAL") := by
  have hRV : ("🟢 VALUE OPPORTUNITY" : String) ≠ "🔴 REDUCE EXPOSURE" := by decide
  have hNV : ("🟡 HOLD / NEUTRAL" : String) ≠ "🔴 REDUCE EXPOSURE" := by decide
  have hRG : ("🔴 REDUCE EXPOSURE" : String) ≠ "🟢 VALUE OPPORTUNITY" := by decide
  have hNG : ("🟡 HOLD / NEUTRAL" : String) ≠ "🟢 VALUE OPPORTUNITY" := by decide
  refine ⟨gr_speculative gap hype pe, fun hv => ⟨gr_high gap hype pe hv, ?_, gr_value gap hype pe hv, ?_, gr_neutral gap hype pe hv, gr_high 51 hype pe hv (by norm_num), ?_, gr_value 19 hype pe hv (by norm_num), ?_, gr_neutral 35 hype pe hv (by norm_num) (by norm_num)⟩⟩
  · intro hle
    by_cases h20 : gap < 20
    · rw [gr_value gap hype pe hv h20]; exact hRV
    · rw [gr_neutral gap hype pe hv (not_lt.mp h20) hle]; exact hNV
  · intro hge
    by_cases h50 : 50 < gap
    · rw [gr_high gap hype pe hv h50]; exact hRG
    · rw [gr_neutral gap hype pe hv hge (not_lt.mp h50)]; exact hNG
  · rw [gr_neutral 50 hype pe hv (by norm_num) (by norm_num)]; exact hNV
  · rw [gr_neutral 20 hype pe hv (by norm_num) (by norm_num)]; exact hNG

/-- Witness for C1 at the valid P/E 22 and gap 35. -/
theorem classify_priority_witness :
    (get_recommendation 35 (PeDisplay.num 22) 0).1 = "🟡 HOLD / NEUTRAL" :=
  ((classify_priority 35 0 (PeDisplay.num 22)).2 (by simp)).2.2.2.2.1
    (by norm_num) (by norm_num)

/-- C9: the recommendation is independent of its hype argument;
sentiment intensity can reach the recommendation only through the gap
derivation, never directly. -/
theorem recommendation_hype_independent :
    ∀ (gap : ℚ) (pe : PeDisplay) (h1 h2 : ℚ),
      get_recommendation gap pe h1 = get_recommendation gap pe h2 :=
  fun _ _ _ _ => rfl

/-- C3: display-record reconciliation has fixed precedence: a live
record wins; otherwise the last (most recent) historical record;
otherwise nothing. -/
theorem reconcile_precedence (L r1 r2 : PulseRecord) (hist : List PulseRecord) :
    reconcile (some L) hist = some L ∧
    reconcile none ([] : List PulseRecord) = none ∧
    reconcile none [r1, r2] = some r2 ∧
    reconcile none (hist ++ [r1]) = some r1 := by
  refine ⟨rfl, rfl, rfl, ?_⟩
  simp [reconcile]

/-- C2: a record whose P/E parses to the undefined sentinel (missing,
unparseable, or non-positive) is always classified speculative,
regardless of its gap score; never value-opportunity, never
reduce-exposure. -/
theorem speculative_invariant (r : PulseRecord) (h : toFloat (rawPe r) ≤ 0) :
    (renderMetrics r).2.2.1 = "⚠️ SPECULATIVE HOLD" ∧
    (renderMetrics r).2.2.1 ≠ "🟢 VALUE OPPORTUNITY" ∧
    (renderMetrics r).2.2.1 ≠ "🔴 REDUCE EXPOSURE" := by
  have hmain : (renderMetrics r).2.2.1 = "⚠️ SPECULATIVE HOLD" := by
    unfold renderMetrics
    rw [if_neg (not_lt.mpr h)]
    exact gr_speculative 0 (toFloat r.hype_score) PeDisplay.na (Or.inr rfl)
  refine ⟨hmain, ?_, ?_⟩ <;> rw [hmain] <;> decide

/-- Example record with an unparseable P/E and a huge gap score. -/
def exBadPe : PulseRecord :=
  { pe_ratio := some (Raw.num (-5)), gap_score := some (Raw.num 1000) }

/-- Witness for C2: a record with P/E −5 and gap score 1000 is
classified speculative. -/
theorem speculative_invariant_witness :
    toFloat (rawPe exBadPe) ≤ 0 ∧
    (renderMetrics exBadPe).2.2.1 = "⚠️ SPECULATIVE HOLD" := by
  have h : toFloat (rawPe exBadPe) ≤ 0 := by norm_num [toFloat, rawPe, exBadPe]
  exact ⟨h, (speculative_invariant exBadPe h).1⟩

/-- C4: with a valid P/E, a zero-or-absent gap score is re-derived as
|pe − hype|, while a non-zero gap score is used verbatim even when it
disagrees with the formula; the displayed gap is the 2-decimal rounding
of that value. -/
theorem gap_score_trust (r : PulseRecord) (hpe : 0 < toFloat (rawPe r)) :
    (toFloat r.gap_score = 0 →
      gap_value r = |toFloat (rawPe r) - toFloat r.hype_score|) ∧
    (toFloat r.gap_score ≠ 0 → gap_value r = toFloat r.gap_score) ∧
    (renderMetrics r).2.1 = some (round2 (gap_value r)) := by
  refine ⟨fun hg => ?_, fun hg => ?_, ?_⟩
  · simp only [gap_value]
    rw [if_pos hpe, if_pos hg]
  · simp only [gap_value]
    rw [if_pos hpe, if_neg hg]
  · simp only [renderMetrics]
    rw [if_pos hpe]

/-- Example record whose non-zero gap score 7 disagrees with
|30 − 80| = 50. -/
def exTrustGap : PulseRecord :=
  { pe_ratio := some (Raw.num 30), hype_score := some (Raw.num 80),
    gap_score := some (Raw.num 7) }

/-- Witness for C4: the remote gap score 7 is kept verbatim although the
formula value would be 50. -/
theorem gap_score_trust_witness :
    0 < toFloat (rawPe exTrustGap) ∧ gap_value exTrustGap = 7 := by
  have hpe : 0 < toFloat (rawPe exTrustGap) := by decide
  have hg : toFloat exTrustGap.gap_score ≠ 0 := by decide
  have h := (gap_score_trust exTrustGap hpe).2.1 hg
  refine ⟨hpe, ?_⟩
  rw [h]
  rfl

/-- Helper: the pe value of `validate_pe` is the common float coercion. -/
theorem validate_pe_fst (raw : Option Raw) : (validate_pe raw).1 = toFloat raw := by
  cases raw with
  | none => rfl
  | some v => cases v <;> rfl

/-- Helper: the validity flag of `validate_pe` decides strict positivity. -/
theorem validate_pe_snd (raw : Option Raw) :
    (validate_pe raw).2 = decide (0 < toFloat raw) := by
  cases raw with
  | none => rfl
  | some v => cases v <;> rfl

/-- C5: P/E validation returns (value, flag) with the flag true exactly
for strictly positive parsed values; the stated concrete evaluations
hold, and an invalid P/E is displayed as the N/A sentinel, never as a
number. -/
theorem validate_pe_spec :
    (∀ raw : Option Raw, ((validate_pe raw).2 = true ↔ 0 < (validate_pe raw).1)) ∧
    validate_pe (some (Raw.num 0)) = (0, false) ∧
    validate_pe (some (Raw.num (-5))) = (-5, false) ∧
    validate_pe (some (Raw.num (45/2))) = (45/2, true) ∧
    validate_pe (some Raw.bad) = (0, false) ∧
    validate_pe none = (0, false) ∧
    (∀ r : PulseRecord, (validate_pe (rawPe r)).2 = false →
      (renderMetrics r).1 = PeDisplay.na) := by
  refine ⟨fun raw => ?_, ?_, ?_, ?_, ?_, ?_, fun r h => ?_⟩
  · rw [validate_pe_snd, validate_pe_fst]
    exact decide_eq_true_iff
  · simp [validate_pe, Prod.ext_iff]
  · simp [validate_pe, Prod.ext_iff]
  · simp [validate_pe, Prod.ext_iff]
  · simp [validate_pe, Prod.ext_iff]
  · simp [validate_pe, Prod.ext_iff]
  · rw [validate_pe_snd] at h
    have hnot : ¬0 < toFloat (rawPe r) := of_decide_eq_false h
    simp only [renderMetrics]
    rw [if_neg hnot]

/-- Example record whose P/E field does not parse as a number. -/
def exBadParse : PulseRecord := { pe_ratio := some Raw.bad }

/-- Witness for C5: an unparseable P/E is invalid and displayed as the
N/A sentinel. -/
theorem validate_pe_spec_witness :
    (validate_pe (some Raw.bad)).2 = false ∧
    (renderMetrics exBadParse).1 = PeDisplay.na := by
  have hflag : (validate_pe (rawPe exBadParse)).2 = false := by
    simp [validate_pe, rawPe, exBadParse]
  exact ⟨hflag, validate_pe_spec.2.2.2.2.2.2 exBadParse hflag⟩

/-- C6 counterexample: a connection error and a timeout are surfaced
identically — same missing live record, same generic warning, no detail
— so the taxonomy variants RemoteTimeout and RemoteConnectionError are
not distinct in the code. -/
theorem remote_error_collapse_counterexample :
    initiateAnalysis (HttpResult.connectionError "connection refused") =
      initiateAnalysis HttpResult.timeout ∧
    initiateAnalysis (HttpResult.connectionError "connection refused") =
      initiateAnalysis (HttpResult.connectionError "DNS failure") ∧
    (initiateAnalysis (HttpResult.connectionError "connection refused")).2 =
      timeoutMsg := ⟨rfl, rfl, rfl⟩

/-- C6 (amended): every failure mode of the analysis request is
non-fatal and yields no live record; a non-200 status, an unparseable
body and a missing ticker each surface their own warning (the status one
naming the status), while a timeout and every other transport failure
share one generic timeout warning without detail; a non-empty list body
is replaced by its first element; and with no live record the caller
falls back to the cached history. -/
theorem remote_failures_nonfatal :
    (∀ (status : ℕ) (body : Option JsonBody), status ≠ 200 →
      initiateAnalysis (HttpResult.response status body) = (none, unstableMsg status)) ∧
    initiateAnalysis (HttpResult.response 200 none) = (none, malformedMsg) ∧
    (∀ r : PulseRecord, tickerTruthy r = false →
      initiateAnalysis (HttpResult.response 200 (some (JsonBody.jdict r))) =
        (none, emptyMsg)) ∧
    initiateAnalysis HttpResult.timeout = (none, timeoutMsg) ∧
    (∀ d : String, initiateAnalysis (HttpResult.connectionError d) = (none, timeoutMsg)) ∧
    (∀ (x : JsonBody) (xs : List JsonBody),
      normalizeBody (JsonBody.jlist (x :: xs)) = x) ∧
    (∀ (res : HttpResult) (hist : List PulseRecord),
      (initiateAnalysis res).1 = none →
      reconcile (initiateAnalysis res).1 hist = hist.getLast?) := by
  refine ⟨fun status body hs => ?_, rfl, fun r h => ?_, rfl, fun d => rfl,
    fun x xs => rfl, fun res hist h => ?_⟩
  · simp only [initiateAnalysis]
    rw [if_neg hs]
  · simp [initiateAnalysis, normalizeBody, h]
  · rw [h]
    rfl

/-- Witness for C6: a 404 response yields no live record and the
status-naming warning. -/
theorem remote_failures_nonfatal_witness :
    initiateAnalysis (HttpResult.response 404 none) = (none, unstableMsg 404) :=
  remote_failures_nonfatal.1 404 none (by decide)

/-- C10: a 200 response whose JSON body is an empty list yields no live
record and falls back to history, and it takes the generic exception
path (the list is never unwrapped, `.get` raises, the outer handler
shows the timeout warning), not the missing-ticker warning. -/
theorem empty_list_body_generic_path :
    initiateAnalysis (HttpResult.response 200 (some (JsonBody.jlist []))) =
      (none, timeoutMsg) ∧
    timeoutMsg ≠ emptyMsg ∧
    (∀ hist : List PulseRecord, reconcile none hist = hist.getLast?) :=
  ⟨rfl, by decide, fun hist => rfl⟩

/-- C7: trend evaluation returns INSUFFICIENT_DATA for histories shorter
than 2; for longer histories it flags ELEVATED exactly when the latest
gap exceeds 1.2 times the arithmetic mean of the full history, else
STABLE; with the two stated concrete evaluations. -/
theorem trend_insufficient_and_threshold :
    evaluate_trend [] = TrendSignal.INSUFFICIENT_DATA ∧
    (∀ x : ℚ, evaluate_trend [x] = TrendSignal.INSUFFICIENT_DATA) ∧
    (∀ history : List ℚ, 2 ≤ history.length →
      (evaluate_trend history = TrendSignal.ELEVATED ↔
        12/10 * (history.sum / (history.length : ℚ)) < history.getLast?.getD 0) ∧
      (evaluate_trend history = TrendSignal.STABLE ↔
        ¬12/10 * (history.sum / (history.length : ℚ)) < history.getLast?.getD 0)) ∧
    evaluate_trend [10, 10, 10, 10, 13] = TrendSignal.ELEVATED ∧
    evaluate_trend [10, 10, 10, 10, 11] = TrendSignal.STABLE := by
  refine ⟨rfl, fun x => rfl, fun history h2 => ?_, by norm_num [evaluate_trend],
    by norm_num [evaluate_trend]⟩
  have hlen : ¬history.length < 2 := not_lt.mpr h2
  by_cases hc : 12/10 * (history.sum / (history.length : ℚ)) < history.getLast?.getD 0
  · simp [evaluate_trend, hlen, hc]
  · simp [evaluate_trend, hlen, hc]

/-- Witness for C7: the history [10, 10, 10, 10, 13] (mean 10.6, latest
13 > 12.72) is ELEVATED. -/
theorem trend_insufficient_and_threshold_witness :
    evaluate_trend [10, 10, 10, 10, 13] = TrendSignal.ELEVATED := by
  have h := (trend_insufficient_and_threshold.2.2.1 [10, 10, 10, 10, 13]
    (by norm_num)).1
  exact h.mpr (by norm_num)

/-- C8 counterexample: a failing datastore query is not converted into
any handled condition — the exception escapes `get_db_data` and the page
crashes instead of showing the informational empty state. -/
theorem db_error_crash_counterexample :
    renderGlobal (Except.error (DbError.queryFailed "connection reset")) true =
      GlobalRender.crash (DbError.queryFailed "connection reset") ∧
    GlobalRender.crash (DbError.queryFailed "connection reset") ≠
      GlobalRender.infoEmpty := ⟨rfl, by simp⟩

/-- C8 (amended): an empty query result is rendered as the informational
empty state (no data, not an error), but a datastore query error is not
caught anywhere: `get_db_data` propagates it unchanged and the top
section crashes with it. -/
theorem db_error_propagates :
    (∀ (e : DbError) (sim : Bool), get_db_data (Except.error e) sim = Except.error e) ∧
    (∀ (e : DbError) (sim : Bool), renderGlobal (Except.error e) sim = GlobalRender.crash e) ∧
    (∀ sim : Bool, renderGlobal (Except.ok []) sim = GlobalRender.infoEmpty) := by
  refine ⟨fun e sim => rfl, fun e sim => rfl, fun sim => ?_⟩
  cases sim <;> rfl
